import Mathlib

/-!
Shallow embedding of `src/btree/bt_bulk.c` (WiredTiger bulk load, 2011).

The C module accumulates inserted records into in-memory skeleton leaf
pages, hands a page to reconciliation every `ipp` records, and at the end
builds a single internal root page referencing every flushed leaf.

Modelling choices:
  * Keys and values are type parameters `K`, `V` (byte buffers in C).
  * The forward-linked record lists built through the `updp` / `insp`
    tail pointers are modelled as Lean lists with tail append; resetting
    the tail cursor to the list head (`cbulk->updp = &cbulk->upd_base`)
    makes subsequent appends rebuild the list from scratch, so it is
    modelled as resetting the list to `[]` (the old head is owned by the
    flushed page from then on).
  * Pages handed to `__wt_page_reconcile` are recorded, in call order, in
    the `flushed` trace of the state.
  * The child-reference array (`cbulk->cref` / `cbulk->rref`) is modelled
    by the list of its initialized entries plus the counters `ref_next`
    (used) and `ref_entries` (allocated slots); `__wt_realloc` growth is
    `ref_entries + 1000` and bumps an allocation generation `gen`, so a
    raw pointer into the array is modelled as a `(generation, index)`
    pair: it addresses live storage exactly while its generation is the
    array's current one.
  * Fallible collaborators (`__wt_update_alloc`, `__wt_row_insert_alloc`,
    `__wt_page_reconcile`) are modelled by explicit success/failure
    parameters on the `_f` / `_r` variants; the unadorned functions are
    the all-collaborators-succeed paths. `liveAllocs` counts record
    allocations (`WT_INSERT`/`WT_UPDATE` blocks) not yet released.
-/

/-- Return / error codes surfaced by the module. -/
inductive WtErr where
  | WT_ERROR
  | WT_NOMEM
  | WT_ILLEGAL
  deriving DecidableEq, Repr

/-- `btree->type`. -/
inductive BtreeType where
  | BTREE_COL_FIX
  | BTREE_COL_RLE
  | BTREE_COL_VAR
  | BTREE_ROW
  deriving DecidableEq, Repr

/-- `page->type` values used by the module. -/
inductive PageType where
  | WT_PAGE_COL_FIX
  | WT_PAGE_COL_RLE
  | WT_PAGE_COL_VAR
  | WT_PAGE_ROW_LEAF
  | WT_PAGE_COL_INT
  | WT_PAGE_ROW_INT
  deriving DecidableEq, Repr

/-- `WT_REF` page state. -/
inductive RefState where
  | WT_REF_DISK
  | WT_REF_MEM
  deriving DecidableEq, Repr

/-- A `page->parent_ref` value: either the tree's root `WT_REF`, or a raw
pointer `&cbulk->cref[idx].ref` / `&cbulk->rref[idx].ref` into the
child-reference array, modelled as the array's allocation generation at
capture time together with the slot index. -/
inductive ParentRef where
  | rootRef
  | slot (gen : Nat) (idx : Nat)
  deriving DecidableEq, Repr

/-- `WT_ADDR_INVALID`. -/
def WT_ADDR_INVALID : Nat := 4294967295

/-- A `WT_PAGE`, flattening the C union `page->u`: `upd` is
`u.bulk.upd`, `ins` is `u.bulk.ins`, `crefChildren` / `rrefChildren` are
`u.col_int.t` / `u.row_int.t`, `recno` is `u.bulk.recno` or
`u.col_int.recno`. `initial_empty` models the `WT_PAGE_INITIAL_EMPTY`
flag, `bulk_load` the `WT_PAGE_BULK_LOAD` flag, `modified` the
`WT_PAGE_SET_MODIFIED` state. -/
structure Page (K V : Type) where
  page_type : PageType
  entries : Nat := 0
  recno : Nat := 0
  upd : List V := []
  ins : List (K × V) := []
  crefChildren : List Nat := []
  rrefChildren : List K := []
  parent_ref : ParentRef := ParentRef.rootRef
  modified : Bool := false
  bulk_load : Bool := false
  initial_empty : Bool := false
  deriving Repr

instance pageInhabited (K V : Type) : Inhabited (Page K V) :=
  ⟨{ page_type := PageType.WT_PAGE_ROW_LEAF }⟩

/-- The tree's root `WT_REF` (`btree->root_page`). -/
structure WtRef (K V : Type) where
  state : RefState
  addr : Nat
  size : Nat
  page : Option (Page K V)

/-- The `WT_BTREE` fields the module touches or must leave alone. -/
structure Btree (K V : Type) where
  type : BtreeType
  root_page : WtRef K V
  no_eviction : Bool
  stats_items_inserted : Nat

/-- The `CURSOR_BULK` fields: per-load session state. -/
structure CursorBulk (K V : Type) where
  recno : Nat := 0
  page_type : PageType := PageType.WT_PAGE_ROW_LEAF
  ipp : Nat := 0
  ins_cnt : Nat := 0
  upd_base : List V := []
  ins_base : List (K × V) := []
  ref_next : Nat := 0
  ref_entries : Nat := 0
  cref : List Nat := []
  rref : List K := []

/-- The whole state a bulk-load call can read or write: the tree, the
bulk cursor, plus the trace of pages handed to reconciliation
(`flushed`), the child-reference array's reallocation generation (`gen`)
and the balance of live record allocations (`liveAllocs`). -/
structure BulkState (K V : Type) where
  btree : Btree K V
  cbulk : CursorBulk K V
  flushed : List (Page K V) := []
  gen : Nat := 0
  liveAllocs : Nat := 0

/-- `F_ISSET(btree->root_page.page, WT_PAGE_INITIAL_EMPTY)` (the C code
dereferences the page pointer; a missing page reads as not-initial-empty). -/
def rootInitialEmpty {K V : Type} (b : Btree K V) : Bool :=
  match b.root_page.page with
  | some p => p.initial_empty
  | none => false

/-- `__wt_bulk_init`: refuse non-empty trees; otherwise free the
placeholder page, mark the root on-disk, set `WT_BTREE_NO_EVICTION`,
initialize per-layout cursor state and set `ipp = 50000`. -/
def wt_bulk_init {K V : Type} (s : BulkState K V) :
    Except WtErr Unit × BulkState K V :=
  if rootInitialEmpty s.btree then
    let rp := { s.btree.root_page with
                  state := RefState.WT_REF_DISK,
                  page := (none : Option (Page K V)) }
    let bt := { s.btree with root_page := rp, no_eviction := true }
    let c := s.cbulk
    let c :=
      match bt.type with
      | BtreeType.BTREE_COL_FIX =>
          { c with recno := 1, upd_base := [],
                   page_type := PageType.WT_PAGE_COL_FIX }
      | BtreeType.BTREE_COL_RLE =>
          { c with recno := 1, upd_base := [],
                   page_type := PageType.WT_PAGE_COL_RLE }
      | BtreeType.BTREE_COL_VAR =>
          { c with recno := 1, upd_base := [],
                   page_type := PageType.WT_PAGE_COL_VAR }
      | BtreeType.BTREE_ROW =>
          { c with ins_base := [],
                   page_type := PageType.WT_PAGE_ROW_LEAF }
    let c := { c with ipp := 50000 }
    (Except.ok (), { s with btree := bt, cbulk := c })
  else
    (Except.error WtErr.WT_ERROR, s)

/-- `__wt_bulk_col_page`: grow the child-reference array by 1000 slots if
exhausted, capture the page's starting record number in
`cref[ref_next]`, build the skeleton page (its `parent_ref` is the raw
address of that slot), advance `recno` by the records flushed, reset the
update list and count, advance `ref_next`, and hand the page to
reconciliation. -/
def wt_bulk_col_page {K V : Type} (s : BulkState K V) : BulkState K V :=
  let c := s.cbulk
  let entries1 : Nat :=
    if c.ref_next = c.ref_entries then c.ref_entries + 1000 else c.ref_entries
  let g : Nat := if c.ref_next = c.ref_entries then s.gen + 1 else s.gen
  let c := { c with ref_entries := entries1, cref := c.cref ++ [c.recno] }
  let page : Page K V :=
    { page_type := c.page_type,
      parent_ref := ParentRef.slot g c.ref_next,
      recno := c.recno,
      upd := c.upd_base,
      modified := true,
      bulk_load := true }
  let c := { c with recno := c.recno + c.ins_cnt,
                    upd_base := [], ins_cnt := 0,
                    ref_next := c.ref_next + 1 }
  { s with cbulk := c, gen := g, flushed := s.flushed ++ [page] }

/-- `__wt_bulk_row_page`: grow the child-reference array by 1000 slots if
exhausted, copy the first key of the page's insert list into
`rref[ref_next]`, build the skeleton page (its `parent_ref` is the raw
address of that slot), reset the insert list and count, advance
`ref_next`, and hand the page to reconciliation. -/
def wt_bulk_row_page {K V : Type} [Inhabited K] (s : BulkState K V) :
    BulkState K V :=
  let c := s.cbulk
  let entries1 : Nat :=
    if c.ref_next = c.ref_entries then c.ref_entries + 1000 else c.ref_entries
  let g : Nat := if c.ref_next = c.ref_entries then s.gen + 1 else s.gen
  let c := { c with ref_entries := entries1,
                    rref := c.rref ++ [(c.ins_base.map Prod.fst).headI] }
  let page : Page K V :=
    { page_type := PageType.WT_PAGE_ROW_LEAF,
      parent_ref := ParentRef.slot g c.ref_next,
      recno := 0,
      ins := c.ins_base,
      modified := true,
      bulk_load := true }
  let c := { c with ins_base := [], ins_cnt := 0,
                    ref_next := c.ref_next + 1 }
  { s with cbulk := c, gen := g, flushed := s.flushed ++ [page] }

/-- `__wt_bulk_col` with the `__wt_update_alloc` outcome explicit
(`updOk = false` models allocation failure): allocate an update, append
it to the page's update list, and flush the page when it reaches `ipp`
records. -/
def wt_bulk_col_f {K V : Type} (updOk : Bool) (v : V) (s : BulkState K V) :
    Except WtErr Unit × BulkState K V :=
  if updOk then
    let s1 : BulkState K V := { s with liveAllocs := s.liveAllocs + 1 }
    let c : CursorBulk K V :=
      { s1.cbulk with upd_base := s1.cbulk.upd_base ++ [v],
                      ins_cnt := s1.cbulk.ins_cnt + 1 }
    let s2 : BulkState K V := { s1 with cbulk := c }
    if c.ins_cnt = c.ipp then (Except.ok (), wt_bulk_col_page s2)
    else (Except.ok (), s2)
  else
    (Except.error WtErr.WT_NOMEM, s)

/-- `__wt_bulk_col` on the all-allocations-succeed path. -/
def wt_bulk_col {K V : Type} (v : V) (s : BulkState K V) : BulkState K V :=
  (wt_bulk_col_f true v s).2

/-- `__wt_bulk_row` with the `__wt_row_insert_alloc` and
`__wt_update_alloc` outcomes explicit: allocate a key record, chain an
update from it, link the pair into the page's insert list, and flush the
page when it reaches `ipp` records. On a key-allocation failure nothing
was allocated and `WT_RET` returns at once; on an update-allocation
failure the error path releases the key record (`__wt_sb_decrement`)
before returning, and the pair is never linked. -/
def wt_bulk_row_f {K V : Type} [Inhabited K]
    (keyOk updOk : Bool) (k : K) (v : V) (s : BulkState K V) :
    Except WtErr Unit × BulkState K V :=
  if keyOk then
    let s1 : BulkState K V := { s with liveAllocs := s.liveAllocs + 1 }
    if updOk then
      let s2 : BulkState K V := { s1 with liveAllocs := s1.liveAllocs + 1 }
      let c : CursorBulk K V :=
        { s2.cbulk with ins_base := s2.cbulk.ins_base ++ [(k, v)],
                        ins_cnt := s2.cbulk.ins_cnt + 1 }
      let s3 : BulkState K V := { s2 with cbulk := c }
      if c.ins_cnt = c.ipp then (Except.ok (), wt_bulk_row_page s3)
      else (Except.ok (), s3)
    else
      (Except.error WtErr.WT_NOMEM,
        { s1 with liveAllocs := s1.liveAllocs - 1 })
  else
    (Except.error WtErr.WT_NOMEM, s)

/-- `__wt_bulk_row` on the all-allocations-succeed path. -/
def wt_bulk_row {K V : Type} [Inhabited K] (k : K) (v : V)
    (s : BulkState K V) : BulkState K V :=
  (wt_bulk_row_f true true k v s).2

/-- `__wt_bulk_end` with the reconciliation outcomes explicit
(`leafRec` for the final leaf flush when one happens, `rootRec` for the
root page): flush the in-progress page if it has entries, build the
internal root page with `entries = ref_next` and the accumulated child
references, install it in the tree's root `WT_REF`, and reconcile it.
The returned state is the state at the point the call returns. -/
def wt_bulk_end_r {K V : Type} [Inhabited K] (leafRec rootRec : Bool)
    (s : BulkState K V) : Except WtErr Unit × BulkState K V :=
  let flushNeeded := s.cbulk.ins_cnt ≠ 0
  let s1 :=
    if flushNeeded then
      match s.cbulk.page_type with
      | PageType.WT_PAGE_COL_FIX => wt_bulk_col_page s
      | PageType.WT_PAGE_COL_RLE => wt_bulk_col_page s
      | PageType.WT_PAGE_COL_VAR => wt_bulk_col_page s
      | PageType.WT_PAGE_ROW_LEAF => wt_bulk_row_page s
      | _ => s
    else s
  if flushNeeded ∧ leafRec = false then
    (Except.error WtErr.WT_ERROR, s1)
  else
    let c := s1.cbulk
    match c.page_type with
    | PageType.WT_PAGE_COL_FIX | PageType.WT_PAGE_COL_RLE
    | PageType.WT_PAGE_COL_VAR =>
        let page : Page K V :=
          { page_type := PageType.WT_PAGE_COL_INT,
            entries := c.ref_next,
            recno := 1,
            crefChildren := c.cref,
            modified := true }
        let rp : WtRef K V :=
          { state := RefState.WT_REF_MEM, addr := WT_ADDR_INVALID,
            size := 0, page := some page }
        let s2 := { s1 with btree := { s1.btree with root_page := rp } }
        ((if rootRec then Except.ok () else Except.error WtErr.WT_ERROR), s2)
    | PageType.WT_PAGE_ROW_LEAF =>
        let page : Page K V :=
          { page_type := PageType.WT_PAGE_ROW_INT,
            entries := c.ref_next,
            rrefChildren := c.rref,
            modified := true }
        let rp : WtRef K V :=
          { state := RefState.WT_REF_MEM, addr := WT_ADDR_INVALID,
            size := 0, page := some page }
        let s2 := { s1 with btree := { s1.btree with root_page := rp } }
        ((if rootRec then Except.ok () else Except.error WtErr.WT_ERROR), s2)
    | _ => (Except.error WtErr.WT_ILLEGAL, s1)

/-- `__wt_bulk_end` on the all-reconciliations-succeed path. -/
def wt_bulk_end {K V : Type} [Inhabited K] (s : BulkState K V) :
    BulkState K V :=
  (wt_bulk_end_r true true s).2

/-- A sequence of column-store inserts (success path). -/
def colRun {K V : Type} (vs : List V) (s : BulkState K V) : BulkState K V :=
  vs.foldl (fun s v => wt_bulk_col v s) s

/-- A sequence of row-store inserts (success path). -/
def rowRun {K V : Type} [Inhabited K] (kvs : List (K × V))
    (s : BulkState K V) : BulkState K V :=
  kvs.foldl (fun s kv => wt_bulk_row kv.1 kv.2 s) s

/-- The placeholder empty page a freshly opened btree carries. -/
def initialEmptyPage (K V : Type) : Page K V :=
  { page_type := PageType.WT_PAGE_ROW_LEAF, initial_empty := true }

/-- A freshly opened, still-empty tree of the given type. -/
def emptyTree (K V : Type) (t : BtreeType) : Btree K V :=
  { type := t,
    root_page := { state := RefState.WT_REF_MEM, addr := WT_ADDR_INVALID,
                   size := 0, page := some (initialEmptyPage K V) },
    no_eviction := false,
    stats_items_inserted := 0 }

/-- The state handed to `__wt_bulk_init`: fresh tree, zeroed bulk cursor. -/
def freshState (K V : Type) (t : BtreeType) : BulkState K V :=
  { btree := emptyTree K V t, cbulk := {} }

/-- State right after a successful `__wt_bulk_init` on an empty
variable-length column tree, with the target page capacity overridden to
`ipp` (the source hardcodes 50000 and marks it `XXX`; the capacity is the
tuning parameter the spec quantifies over). -/
def colStart (K V : Type) (ipp : Nat) : BulkState K V :=
  let s := (wt_bulk_init (freshState K V BtreeType.BTREE_COL_VAR)).2
  { s with cbulk := { s.cbulk with ipp := ipp } }

/-- State right after a successful `__wt_bulk_init` on an empty row
tree, with the target page capacity overridden to `ipp`. -/
def rowStart (K V : Type) (ipp : Nat) : BulkState K V :=
  let s := (wt_bulk_init (freshState K V BtreeType.BTREE_ROW)).2
  { s with cbulk := { s.cbulk with ipp := ipp } }

variable {K V : Type}

/-- The concatenation, in flush order, of the update lists of a list of
pages. -/
def pagesUpd (ps : List (Page K V)) : List V :=
  (ps.map Page.upd).flatten

/-- The concatenation, in flush order, of the insert lists of a list of
pages. -/
def pagesIns (ps : List (Page K V)) : List (K × V) :=
  (ps.map Page.ins).flatten

/-- The skeleton page `__wt_bulk_col_page` builds and hands to
reconciliation, given the pre-call state. -/
def colFlushPage (s : BulkState K V) : Page K V :=
  { page_type := s.cbulk.page_type,
    parent_ref := ParentRef.slot
      (if s.cbulk.ref_next = s.cbulk.ref_entries then s.gen + 1 else s.gen)
      s.cbulk.ref_next,
    recno := s.cbulk.recno,
    upd := s.cbulk.upd_base,
    modified := true,
    bulk_load := true }

/-- The skeleton page `__wt_bulk_row_page` builds and hands to
reconciliation, given the pre-call state. -/
def rowFlushPage [Inhabited K] (s : BulkState K V) : Page K V :=
  { page_type := PageType.WT_PAGE_ROW_LEAF,
    parent_ref := ParentRef.slot
      (if s.cbulk.ref_next = s.cbulk.ref_entries then s.gen + 1 else s.gen)
      s.cbulk.ref_next,
    recno := 0,
    ins := s.cbulk.ins_base,
    modified := true,
    bulk_load := true }

/-- Invariant of a column-store load with capacity `ipp` that has inserted
the sequence `done` so far. -/
structure ColInv (ipp : Nat) (done : List V) (s : BulkState K V) : Prop where
  hipp : 0 < ipp
  ipp_eq : s.cbulk.ipp = ipp
  pt : s.cbulk.page_type = PageType.WT_PAGE_COL_VAR
  cnt : s.cbulk.ins_cnt = s.cbulk.upd_base.length
  cnt_lt : s.cbulk.upd_base.length < ipp
  concat : pagesUpd s.flushed ++ s.cbulk.upd_base = done
  full : ∀ p ∈ s.flushed, p.upd.length = ipp
  recno_eq : s.cbulk.recno = (pagesUpd s.flushed).length + 1
  page_recno : ∀ i p, s.flushed[i]? = some p →
      p.recno = (pagesUpd (s.flushed.take i)).length + 1
  refs : s.cbulk.ref_next = s.flushed.length

/-- Invariant of a row-store load with capacity `ipp` that has inserted
the key/value sequence `done` so far. -/
structure RowInv (ipp : Nat) (done : List (K × V)) (s : BulkState K V) :
    Prop where
  hipp : 0 < ipp
  ipp_eq : s.cbulk.ipp = ipp
  pt : s.cbulk.page_type = PageType.WT_PAGE_ROW_LEAF
  cnt : s.cbulk.ins_cnt = s.cbulk.ins_base.length
  cnt_lt : s.cbulk.ins_base.length < ipp
  concat : pagesIns s.flushed ++ s.cbulk.ins_base = done
  full : ∀ p ∈ s.flushed, p.ins.length = ipp
  refs : s.cbulk.ref_next = s.flushed.length

/-- A tree whose root page exists but is not the initial-empty
placeholder (e.g. a tree that has already been written to). -/
def nonEmptyState (K V : Type) (t : BtreeType) : BulkState K V :=
  { btree :=
      { type := t,
        root_page := { state := RefState.WT_REF_MEM, addr := WT_ADDR_INVALID,
                       size := 0,
                       page := some { page_type := PageType.WT_PAGE_ROW_LEAF } },
        no_eviction := false,
        stats_items_inserted := 0 },
    cbulk := {} }

/-- Whether a captured child-array pointer still addresses live storage:
a `(generation, index)` slot pointer is live exactly while its
generation is the array's current allocation generation (a growing
`realloc` frees the old block, so pointers into it are invalidated). -/
def slotLive (s : BulkState K V) : ParentRef → Bool
  | ParentRef.rootRef => true
  | ParentRef.slot g _ => g == s.gen

/-- The smallest positive multiple of 1000 that is at least `n`. -/
def smallestPosMult1000 (n : Nat) : Nat :=
  if n = 0 then 1000 else 1000 * ((n + 999) / 1000)

/-- Capacity bookkeeping of the child-reference array: the used count
tracks the flushed pages, and the allocated count is 0 before the first
rotation and afterwards the smallest positive multiple of 1000 covering
the used count. -/
def capInv (s : BulkState K V) : Prop :=
  s.cbulk.ref_next = s.flushed.length ∧
  ((s.cbulk.ref_next = 0 ∧ s.cbulk.ref_entries = 0) ∨
   s.cbulk.ref_entries = smallestPosMult1000 s.cbulk.ref_next)

/-- Closed form of a column load with capacity 1 after `n` inserts:
every insert flushes a page, so `n` pages have been flushed, the
child-reference array has been grown to `1000 * ceil(n / 1000)` slots in
`ceil(n / 1000)` reallocations, and (once `n ≥ 1`) the first flushed
page's back-reference points at slot 0 of allocation generation 1. -/
structure C7Run (n : Nat) (s : BulkState K V) : Prop where
  ipp : s.cbulk.ipp = 1
  cnt : s.cbulk.ins_cnt = 0
  next : s.cbulk.ref_next = n
  entries : s.cbulk.ref_entries = 1000 * ((n + 999) / 1000)
  gen : s.gen = (n + 999) / 1000
  flen : s.flushed.length = n
  head : 1 ≤ n → (s.flushed.headI).parent_ref = ParentRef.slot 1 0

example :
    ((colStart Nat Nat 3 |> colRun [10, 20, 30, 40] |> wt_bulk_end).flushed.map
      Page.upd) = [[10, 20, 30], [40]] := by decide

example :
    ((colStart Nat Nat 3 |> colRun [10, 20, 30, 40] |> wt_bulk_end).cbulk.cref)
      = [1, 4] := by decide

example :
    ((rowStart Nat Nat 2 |> rowRun [(1, 10), (2, 20), (3, 30)]
        |> wt_bulk_end).cbulk.rref) = [1, 3] := by decide

lemma pagesUpd_append (a b : List (Page K V)) :
    pagesUpd (a ++ b) = pagesUpd a ++ pagesUpd b := by
  simp [pagesUpd]

lemma pagesIns_append (a b : List (Page K V)) :
    pagesIns (a ++ b) = pagesIns a ++ pagesIns b := by
  simp [pagesIns]

lemma col_page_cbulk (s : BulkState K V) :
    (wt_bulk_col_page s).cbulk =
      { s.cbulk with
          ref_entries :=
            if s.cbulk.ref_next = s.cbulk.ref_entries
            then s.cbulk.ref_entries + 1000 else s.cbulk.ref_entries,
          cref := s.cbulk.cref ++ [s.cbulk.recno],
          recno := s.cbulk.recno + s.cbulk.ins_cnt,
          upd_base := [], ins_cnt := 0,
          ref_next := s.cbulk.ref_next + 1 } := rfl

lemma col_page_flushed (s : BulkState K V) :
    (wt_bulk_col_page s).flushed = s.flushed ++ [colFlushPage s] := rfl

lemma col_page_gen (s : BulkState K V) :
    (wt_bulk_col_page s).gen =
      if s.cbulk.ref_next = s.cbulk.ref_entries then s.gen + 1 else s.gen :=
  rfl

lemma col_page_btree (s : BulkState K V) :
    (wt_bulk_col_page s).btree = s.btree := rfl

lemma row_page_cbulk [Inhabited K] (s : BulkState K V) :
    (wt_bulk_row_page s).cbulk =
      { s.cbulk with
          ref_entries :=
            if s.cbulk.ref_next = s.cbulk.ref_entries
            then s.cbulk.ref_entries + 1000 else s.cbulk.ref_entries,
          rref := s.cbulk.rref ++ [(s.cbulk.ins_base.map Prod.fst).headI],
          ins_base := [], ins_cnt := 0,
          ref_next := s.cbulk.ref_next + 1 } := rfl

lemma row_page_flushed [Inhabited K] (s : BulkState K V) :
    (wt_bulk_row_page s).flushed = s.flushed ++ [rowFlushPage s] := rfl

lemma row_page_gen [Inhabited K] (s : BulkState K V) :
    (wt_bulk_row_page s).gen =
      if s.cbulk.ref_next = s.cbulk.ref_entries then s.gen + 1 else s.gen :=
  rfl

lemma row_page_btree [Inhabited K] (s : BulkState K V) :
    (wt_bulk_row_page s).btree = s.btree := rfl

lemma wt_bulk_col_not_full (v : V) (s : BulkState K V)
    (h : ¬ s.cbulk.ins_cnt + 1 = s.cbulk.ipp) :
    wt_bulk_col v s =
      { s with liveAllocs := s.liveAllocs + 1,
               cbulk := { s.cbulk with
                            upd_base := s.cbulk.upd_base ++ [v],
                            ins_cnt := s.cbulk.ins_cnt + 1 } } := by
  simp [wt_bulk_col, wt_bulk_col_f, h]

lemma wt_bulk_col_full (v : V) (s : BulkState K V)
    (h : s.cbulk.ins_cnt + 1 = s.cbulk.ipp) :
    wt_bulk_col v s = wt_bulk_col_page
      { s with liveAllocs := s.liveAllocs + 1,
               cbulk := { s.cbulk with
                            upd_base := s.cbulk.upd_base ++ [v],
                            ins_cnt := s.cbulk.ins_cnt + 1 } } := by
  simp [wt_bulk_col, wt_bulk_col_f, h]

lemma wt_bulk_row_not_full [Inhabited K] (k : K) (v : V) (s : BulkState K V)
    (h : ¬ s.cbulk.ins_cnt + 1 = s.cbulk.ipp) :
    wt_bulk_row k v s =
      { s with liveAllocs := s.liveAllocs + 2,
               cbulk := { s.cbulk with
                            ins_base := s.cbulk.ins_base ++ [(k, v)],
                            ins_cnt := s.cbulk.ins_cnt + 1 } } := by
  simp [wt_bulk_row, wt_bulk_row_f, h]

lemma wt_bulk_row_full [Inhabited K] (k : K) (v : V) (s : BulkState K V)
    (h : s.cbulk.ins_cnt + 1 = s.cbulk.ipp) :
    wt_bulk_row k v s = wt_bulk_row_page
      { s with liveAllocs := s.liveAllocs + 2,
               cbulk := { s.cbulk with
                            ins_base := s.cbulk.ins_base ++ [(k, v)],
                            ins_cnt := s.cbulk.ins_cnt + 1 } } := by
  simp [wt_bulk_row, wt_bulk_row_f, h]

lemma pagesUpd_singleton (p : Page K V) : pagesUpd [p] = p.upd := by
  simp [pagesUpd]

lemma pagesIns_singleton (p : Page K V) : pagesIns [p] = p.ins := by
  simp [pagesIns]

lemma take_concat_of_le {α : Type} (l : List α) (a : α) {i : Nat}
    (h : i ≤ l.length) : (l ++ [a]).take i = l.take i := by
  rw [List.take_append_eq_append_take, Nat.sub_eq_zero_of_le h]
  simp

lemma colInv_start (ipp : Nat) (hipp : 0 < ipp) :
    ColInv ipp [] (colStart K V ipp) := by
  refine ⟨hipp, rfl, rfl, rfl, hipp, rfl, ?_, rfl, ?_, rfl⟩
  · intro p hp; simp [colStart, wt_bulk_init, freshState, emptyTree,
      initialEmptyPage, rootInitialEmpty] at hp
  · intro i p hp
    simp [colStart, wt_bulk_init, freshState, emptyTree,
      initialEmptyPage, rootInitialEmpty] at hp

lemma colInv_step (v : V) {ipp : Nat} {done : List V} {s : BulkState K V}
    (h : ColInv ipp done s) : ColInv ipp (done ++ [v]) (wt_bulk_col v s) := by
  have hc := h.cnt
  by_cases hfull : s.cbulk.ins_cnt + 1 = s.cbulk.ipp
  · rw [wt_bulk_col_full v s hfull]
    rw [h.ipp_eq] at hfull
    set t : BulkState K V :=
      { s with liveAllocs := s.liveAllocs + 1,
               cbulk := { s.cbulk with
                            upd_base := s.cbulk.upd_base ++ [v],
                            ins_cnt := s.cbulk.ins_cnt + 1 } } with ht
    have hflushed : (wt_bulk_col_page t).flushed =
        s.flushed ++ [colFlushPage t] := col_page_flushed t
    have hub : (colFlushPage t).upd = s.cbulk.upd_base ++ [v] := rfl
    have hrec : (colFlushPage t).recno = s.cbulk.recno := rfl
    have hlen : (colFlushPage t).upd.length = ipp := by
      rw [hub]; simp; omega
    refine ⟨h.hipp, h.ipp_eq, h.pt, rfl, h.hipp, ?_, ?_, ?_, ?_, ?_⟩
    · show pagesUpd (wt_bulk_col_page t).flushed ++ [] = done ++ [v]
      rw [hflushed, pagesUpd_append, List.append_nil, pagesUpd_singleton,
        hub, ← List.append_assoc, h.concat]
    · intro p hp
      rw [hflushed] at hp
      rcases List.mem_append.mp hp with hl | hr
      · exact h.full p hl
      · rcases List.mem_singleton.mp hr with rfl; exact hlen
    · show s.cbulk.recno + (s.cbulk.ins_cnt + 1) =
        (pagesUpd (wt_bulk_col_page t).flushed).length + 1
      rw [hflushed, pagesUpd_append, pagesUpd_singleton, hub, h.recno_eq]
      simp; omega
    · intro i p hp
      rw [hflushed] at hp ⊢
      rcases Nat.lt_or_ge i s.flushed.length with hlt | hge
      · rw [List.getElem?_append_left hlt] at hp
        rw [take_concat_of_le _ _ (Nat.le_of_lt hlt)]
        exact h.page_recno i p hp
      · rw [List.getElem?_append_right hge] at hp
        rcases Nat.lt_or_ge i (s.flushed.length + 1) with hlt1 | hge1
        · have hieq : i = s.flushed.length := by omega
          subst hieq
          simp at hp
          rw [take_concat_of_le _ _ (Nat.le_refl _), List.take_length,
            ← hp, hrec, h.recno_eq]
        · have : i - s.flushed.length ≥ 1 := by omega
          rw [List.getElem?_eq_none (by simpa using this)] at hp
          exact absurd hp (by simp)
    · show s.cbulk.ref_next + 1 = (wt_bulk_col_page t).flushed.length
      rw [hflushed]; simp [h.refs]
  · rw [wt_bulk_col_not_full v s hfull]
    rw [h.ipp_eq] at hfull
    have hlt := h.cnt_lt
    refine ⟨h.hipp, h.ipp_eq, h.pt, ?_, ?_, ?_, h.full, h.recno_eq,
      h.page_recno, h.refs⟩
    · show s.cbulk.ins_cnt + 1 = (s.cbulk.upd_base ++ [v]).length
      simp; omega
    · show (s.cbulk.upd_base ++ [v]).length < ipp
      simp; omega
    · show pagesUpd s.flushed ++ (s.cbulk.upd_base ++ [v]) = done ++ [v]
      rw [← List.append_assoc, h.concat]

lemma colInv_run {ipp : Nat} (vs : List V) :
    ∀ (done : List V) (s : BulkState K V), ColInv ipp done s →
      ColInv ipp (done ++ vs) (colRun vs s) := by
  induction vs with
  | nil => intro done s h; simpa [colRun] using h
  | cons v vs ih =>
      intro done s h
      have h1 : ColInv ipp (done ++ [v]) (wt_bulk_col v s) := colInv_step v h
      have h2 := ih (done ++ [v]) (wt_bulk_col v s) h1
      simpa [colRun, List.foldl_cons] using h2

lemma wt_bulk_end_col_flushed [Inhabited K] (s : BulkState K V)
    (hpt : s.cbulk.page_type = PageType.WT_PAGE_COL_VAR) :
    (wt_bulk_end s).flushed =
      if s.cbulk.ins_cnt = 0 then s.flushed
      else s.flushed ++ [colFlushPage s] := by
  by_cases h : s.cbulk.ins_cnt = 0 <;>
    simp [wt_bulk_end, wt_bulk_end_r, h, hpt, col_page_cbulk,
      col_page_flushed]

lemma wt_bulk_end_col_ref_next [Inhabited K] (s : BulkState K V)
    (hpt : s.cbulk.page_type = PageType.WT_PAGE_COL_VAR) :
    (wt_bulk_end s).cbulk.ref_next =
      if s.cbulk.ins_cnt = 0 then s.cbulk.ref_next
      else s.cbulk.ref_next + 1 := by
  by_cases h : s.cbulk.ins_cnt = 0 <;>
    simp [wt_bulk_end, wt_bulk_end_r, h, hpt, col_page_cbulk]

lemma wt_bulk_end_row_flushed [Inhabited K] (s : BulkState K V)
    (hpt : s.cbulk.page_type = PageType.WT_PAGE_ROW_LEAF) :
    (wt_bulk_end s).flushed =
      if s.cbulk.ins_cnt = 0 then s.flushed
      else s.flushed ++ [rowFlushPage s] := by
  by_cases h : s.cbulk.ins_cnt = 0 <;>
    simp [wt_bulk_end, wt_bulk_end_r, h, hpt, row_page_cbulk,
      row_page_flushed]

lemma wt_bulk_end_row_ref_next [Inhabited K] (s : BulkState K V)
    (hpt : s.cbulk.page_type = PageType.WT_PAGE_ROW_LEAF) :
    (wt_bulk_end s).cbulk.ref_next =
      if s.cbulk.ins_cnt = 0 then s.cbulk.ref_next
      else s.cbulk.ref_next + 1 := by
  by_cases h : s.cbulk.ins_cnt = 0 <;>
    simp [wt_bulk_end, wt_bulk_end_r, h, hpt, row_page_cbulk]

lemma page_recno_extend {fl : List (Page K V)} {pg : Page K V}
    (hrec : pg.recno = (pagesUpd fl).length + 1)
    (hpr : ∀ i p, fl[i]? = some p →
      p.recno = (pagesUpd (fl.take i)).length + 1) :
    ∀ i p, (fl ++ [pg])[i]? = some p →
      p.recno = (pagesUpd ((fl ++ [pg]).take i)).length + 1 := by
  intro i p hp
  rcases Nat.lt_or_ge i fl.length with hlt | hge
  · rw [List.getElem?_append_left hlt] at hp
    rw [take_concat_of_le _ _ (Nat.le_of_lt hlt)]
    exact hpr i p hp
  · rw [List.getElem?_append_right hge] at hp
    rcases Nat.lt_or_ge i (fl.length + 1) with hlt1 | hge1
    · have hieq : i = fl.length := by omega
      subst hieq
      simp at hp
      rw [take_concat_of_le _ _ (Nat.le_refl _), List.take_length, ← hp, hrec]
    · have h1 : i - fl.length ≥ 1 := by omega
      rw [List.getElem?_eq_none (by simpa using h1)] at hp
      exact absurd hp (by simp)

lemma rowInv_start (ipp : Nat) (hipp : 0 < ipp) :
    RowInv ipp [] (rowStart K V ipp) := by
  refine ⟨hipp, rfl, rfl, rfl, hipp, rfl, ?_, rfl⟩
  intro p hp
  simp [rowStart, wt_bulk_init, freshState, emptyTree,
    initialEmptyPage, rootInitialEmpty] at hp

lemma rowInv_step [Inhabited K] (k : K) (v : V) {ipp : Nat}
    {done : List (K × V)} {s : BulkState K V} (h : RowInv ipp done s) :
    RowInv ipp (done ++ [(k, v)]) (wt_bulk_row k v s) := by
  have hc := h.cnt
  by_cases hfull : s.cbulk.ins_cnt + 1 = s.cbulk.ipp
  · rw [wt_bulk_row_full k v s hfull]
    rw [h.ipp_eq] at hfull
    set t : BulkState K V :=
      { s with liveAllocs := s.liveAllocs + 2,
               cbulk := { s.cbulk with
                            ins_base := s.cbulk.ins_base ++ [(k, v)],
                            ins_cnt := s.cbulk.ins_cnt + 1 } } with ht
    have hflushed : (wt_bulk_row_page t).flushed =
        s.flushed ++ [rowFlushPage t] := row_page_flushed t
    have hins : (rowFlushPage t).ins = s.cbulk.ins_base ++ [(k, v)] := rfl
    have hlen : (rowFlushPage t).ins.length = ipp := by
      rw [hins]; simp; omega
    refine ⟨h.hipp, h.ipp_eq, h.pt, rfl, h.hipp, ?_, ?_, ?_⟩
    · show pagesIns (wt_bulk_row_page t).flushed ++ [] = done ++ [(k, v)]
      rw [hflushed, pagesIns_append, List.append_nil, pagesIns_singleton,
        hins, ← List.append_assoc, h.concat]
    · intro p hp
      rw [hflushed] at hp
      rcases List.mem_append.mp hp with hl | hr
      · exact h.full p hl
      · rcases List.mem_singleton.mp hr with rfl; exact hlen
    · show s.cbulk.ref_next + 1 = (wt_bulk_row_page t).flushed.length
      rw [hflushed]; simp [h.refs]
  · rw [wt_bulk_row_not_full k v s hfull]
    rw [h.ipp_eq] at hfull
    have hlt := h.cnt_lt
    refine ⟨h.hipp, h.ipp_eq, h.pt, ?_, ?_, ?_, h.full, h.refs⟩
    · show s.cbulk.ins_cnt + 1 = (s.cbulk.ins_base ++ [(k, v)]).length
      simp; omega
    · show (s.cbulk.ins_base ++ [(k, v)]).length < ipp
      simp; omega
    · show pagesIns s.flushed ++ (s.cbulk.ins_base ++ [(k, v)]) =
        done ++ [(k, v)]
      rw [← List.append_assoc, h.concat]

lemma rowInv_run [Inhabited K] {ipp : Nat} (kvs : List (K × V)) :
    ∀ (done : List (K × V)) (s : BulkState K V), RowInv ipp done s →
      RowInv ipp (done ++ kvs) (rowRun kvs s) := by
  induction kvs with
  | nil => intro done s h; simpa [rowRun] using h
  | cons kv kvs ih =>
      intro done s h
      have h1 : RowInv ipp (done ++ [kv]) (wt_bulk_row kv.1 kv.2 s) :=
        rowInv_step kv.1 kv.2 h
      have h2 := ih (done ++ [kv]) (wt_bulk_row kv.1 kv.2 s) h1
      simpa [rowRun, List.foldl_cons] using h2

lemma pagesUpd_length_full {fl : List (Page K V)} {ipp : Nat}
    (h : ∀ p ∈ fl, p.upd.length = ipp) :
    (pagesUpd fl).length = ipp * fl.length := by
  induction fl with
  | nil => simp [pagesUpd]
  | cons p fl ih =>
      have hp := h p (List.mem_cons_self p fl)
      have hrest : ∀ q ∈ fl, q.upd.length = ipp := fun q hq =>
        h q (List.mem_cons_of_mem p hq)
      show (pagesUpd ([p] ++ fl)).length = ipp * (fl.length + 1)
      rw [pagesUpd_append, pagesUpd_singleton]
      simp [ih hrest, hp]; ring

lemma pagesIns_length_full {fl : List (Page K V)} {ipp : Nat}
    (h : ∀ p ∈ fl, p.ins.length = ipp) :
    (pagesIns fl).length = ipp * fl.length := by
  induction fl with
  | nil => simp [pagesIns]
  | cons p fl ih =>
      have hp := h p (List.mem_cons_self p fl)
      have hrest : ∀ q ∈ fl, q.ins.length = ipp := fun q hq =>
        h q (List.mem_cons_of_mem p hq)
      show (pagesIns ([p] ++ fl)).length = ipp * (fl.length + 1)
      rw [pagesIns_append, pagesIns_singleton]
      simp [ih hrest, hp]; ring

lemma flush_count_formula {ipp f r n : Nat} (hipp : 0 < ipp) (hr : r < ipp)
    (hn : n = ipp * f + r) (hpos : 0 < n) :
    f + (if r = 0 then 0 else 1) = (n - 1) / ipp + 1 := by
  rcases Nat.eq_zero_or_pos r with h0 | hrp
  · subst h0
    simp only [if_pos rfl, Nat.add_zero] at hn ⊢
    have hf : 0 < f := by
      rcases Nat.eq_zero_or_pos f with hf0 | hf1
      · subst hf0; simp at hn; omega
      · exact hf1
    have hsub : n - 1 = ipp * (f - 1) + (ipp - 1) := by
      have : ipp * f = ipp * (f - 1) + ipp := by
        cases f with
        | zero => omega
        | succ m => simp [Nat.mul_succ]
      omega
    have hdiv : (ipp * (f - 1) + (ipp - 1)) / ipp = f - 1 + (ipp - 1) / ipp :=
      Nat.mul_add_div hipp _ _
    have hdiv2 : (ipp - 1) / ipp = 0 := Nat.div_eq_of_lt (by omega)
    rw [hsub, hdiv, hdiv2]
    simp only [if_pos trivial]
    omega
  · have hne : r ≠ 0 := Nat.pos_iff_ne_zero.mp hrp
    simp only [if_neg hne]
    have hsub : n - 1 = ipp * f + (r - 1) := by omega
    have hdiv : (ipp * f + (r - 1)) / ipp = f + (r - 1) / ipp :=
      Nat.mul_add_div hipp _ _
    have hdiv2 : (r - 1) / ipp = 0 := Nat.div_eq_of_lt (by omega)
    rw [hsub, hdiv, hdiv2]

/-- C1: for every capacity `ipp > 0` and every sequence `vs` of
column-store inserts, after `end` the concatenation of the flushed pages'
update lists, in flush order, equals `vs` (so record N, 1-indexed, maps
to the Nth inserted value), and each flushed page's starting record
number equals 1 plus the number of records flushed before it. -/
theorem C1_col_load_output {K V : Type} [Inhabited K] (ipp : Nat)
    (hipp : 0 < ipp) (vs : List V) :
    pagesUpd (wt_bulk_end (colRun vs (colStart K V ipp))).flushed = vs ∧
    ∀ i p,
      (wt_bulk_end (colRun vs (colStart K V ipp))).flushed[i]? = some p →
      p.recno = (pagesUpd
        ((wt_bulk_end (colRun vs (colStart K V ipp))).flushed.take i)).length
        + 1 := by
  have hinv : ColInv ipp vs (colRun vs (colStart K V ipp)) := by
    simpa using colInv_run vs [] (colStart K V ipp) (colInv_start ipp hipp)
  set s0 := colRun vs (colStart K V ipp) with hs0
  have hpt := hinv.pt
  have hfl := wt_bulk_end_col_flushed s0 hpt
  by_cases h0 : s0.cbulk.ins_cnt = 0
  · rw [if_pos h0] at hfl
    rw [hfl]
    have hub : s0.cbulk.upd_base = [] := by
      have := hinv.cnt
      exact List.length_eq_zero.mp (by omega)
    constructor
    · have hcc := hinv.concat; rwa [hub, List.append_nil] at hcc
    · exact hinv.page_recno
  · rw [if_neg h0] at hfl
    rw [hfl]
    constructor
    · rw [pagesUpd_append, pagesUpd_singleton]
      exact hinv.concat
    · exact page_recno_extend hinv.recno_eq hinv.page_recno

/-- Witness for C1 at `ipp = 3`, `vs = [10, 20, 30, 40]`. -/
theorem C1_col_load_output_witness :
    0 < 3 ∧
    (pagesUpd (wt_bulk_end
        (colRun [10, 20, 30, 40] (colStart Nat Nat 3))).flushed
      = [10, 20, 30, 40] ∧
    ∀ i p,
      (wt_bulk_end
        (colRun [10, 20, 30, 40] (colStart Nat Nat 3))).flushed[i]? = some p →
      p.recno = (pagesUpd ((wt_bulk_end (colRun [10, 20, 30, 40]
        (colStart Nat Nat 3))).flushed.take i)).length + 1) :=
  ⟨by decide, C1_col_load_output 3 (by decide) [10, 20, 30, 40]⟩

lemma c2_col_aux {K V : Type} [Inhabited K] {ipp : Nat} (hipp : 0 < ipp)
    (vs : List V) :
    (vs = [] →
      (wt_bulk_end (colRun vs (colStart K V ipp))).flushed.length = 0) ∧
    (vs ≠ [] →
      (wt_bulk_end (colRun vs (colStart K V ipp))).flushed.length
        = (vs.length - 1) / ipp + 1) ∧
    (∀ i p,
      (wt_bulk_end (colRun vs (colStart K V ipp))).flushed[i]? = some p →
      i + 1 < (wt_bulk_end (colRun vs (colStart K V ipp))).flushed.length →
      p.upd.length = ipp) ∧
    (∀ p,
      (wt_bulk_end (colRun vs (colStart K V ipp))).flushed.getLast? = some p →
      1 ≤ p.upd.length ∧ p.upd.length ≤ ipp) ∧
    (wt_bulk_end (colRun vs (colStart K V ipp))).cbulk.ref_next
      = (wt_bulk_end (colRun vs (colStart K V ipp))).flushed.length := by
  have hinv : ColInv ipp vs (colRun vs (colStart K V ipp)) := by
    simpa using colInv_run vs [] (colStart K V ipp) (colInv_start ipp hipp)
  set s0 := colRun vs (colStart K V ipp) with hs0
  have hpt := hinv.pt
  have hfl := wt_bulk_end_col_flushed s0 hpt
  have hrn := wt_bulk_end_col_ref_next s0 hpt
  have hfull_len : (pagesUpd s0.flushed).length = ipp * s0.flushed.length :=
    pagesUpd_length_full hinv.full
  have hconcat_len :
      ipp * s0.flushed.length + s0.cbulk.upd_base.length = vs.length := by
    have h1 := congrArg List.length hinv.concat
    simpa [hfull_len] using h1
  have hcnt := hinv.cnt
  by_cases h0 : s0.cbulk.ins_cnt = 0
  · rw [if_pos h0] at hfl hrn
    refine ⟨?_, ?_, ?_, ?_, ?_⟩
    · intro hnil
      rw [hfl]
      have hn : vs.length = 0 := by simp [hnil]
      have hm : ipp * s0.flushed.length = 0 := by omega
      rcases Nat.mul_eq_zero.mp hm with h | h
      · omega
      · exact h
    · intro hne
      rw [hfl]
      have hn1 : 0 < vs.length := List.length_pos.mpr hne
      have hn' : vs.length = ipp * s0.flushed.length + 0 := by omega
      have hform := flush_count_formula hipp hipp hn' hn1
      simpa using hform
    · intro i p hp _
      rw [hfl] at hp
      exact hinv.full p (List.getElem?_mem hp)
    · intro p hp
      rw [hfl] at hp
      have hm := List.mem_of_getLast?_eq_some hp
      have := hinv.full p hm
      omega
    · rw [hfl, hrn, hinv.refs]
  · rw [if_neg h0] at hfl hrn
    have hrpos : 0 < s0.cbulk.upd_base.length := by omega
    refine ⟨?_, ?_, ?_, ?_, ?_⟩
    · intro hnil
      exfalso
      have : vs.length = 0 := by simp [hnil]
      omega
    · intro hne
      rw [hfl]
      have hn1 : 0 < vs.length := by omega
      have hn' : vs.length
          = ipp * s0.flushed.length + s0.cbulk.upd_base.length := by omega
      have hform := flush_count_formula hipp hinv.cnt_lt hn' hn1
      rw [if_neg (by omega)] at hform
      simp only [List.length_append, List.length_singleton]
      omega
    · intro i p hp hi
      rw [hfl] at hp hi
      simp only [List.length_append, List.length_singleton] at hi
      have hlt : i < s0.flushed.length := by omega
      rw [List.getElem?_append_left hlt] at hp
      exact hinv.full p (List.getElem?_mem hp)
    · intro p hp
      rw [hfl, List.getLast?_concat] at hp
      have hpe := Option.some.inj hp
      have hupd : p.upd = s0.cbulk.upd_base := by rw [← hpe]; rfl
      have hlt := hinv.cnt_lt
      rw [hupd]
      omega
    · rw [hfl, hrn, hinv.refs]
      simp

lemma c2_row_aux {K V : Type} [Inhabited K] {ipp : Nat} (hipp : 0 < ipp)
    (kvs : List (K × V)) :
    (kvs = [] →
      (wt_bulk_end (rowRun kvs (rowStart K V ipp))).flushed.length = 0) ∧
    (kvs ≠ [] →
      (wt_bulk_end (rowRun kvs (rowStart K V ipp))).flushed.length
        = (kvs.length - 1) / ipp + 1) ∧
    (∀ i p,
      (wt_bulk_end (rowRun kvs (rowStart K V ipp))).flushed[i]? = some p →
      i + 1 < (wt_bulk_end (rowRun kvs (rowStart K V ipp))).flushed.length →
      p.ins.length = ipp) ∧
    (∀ p,
      (wt_bulk_end (rowRun kvs (rowStart K V ipp))).flushed.getLast? = some p →
      1 ≤ p.ins.length ∧ p.ins.length ≤ ipp) ∧
    (wt_bulk_end (rowRun kvs (rowStart K V ipp))).cbulk.ref_next
      = (wt_bulk_end (rowRun kvs (rowStart K V ipp))).flushed.length := by
  have hinv : RowInv ipp kvs (rowRun kvs (rowStart K V ipp)) := by
    simpa using rowInv_run kvs [] (rowStart K V ipp) (rowInv_start ipp hipp)
  set s0 := rowRun kvs (rowStart K V ipp) with hs0
  have hpt := hinv.pt
  have hfl := wt_bulk_end_row_flushed s0 hpt
  have hrn := wt_bulk_end_row_ref_next s0 hpt
  have hfull_len : (pagesIns s0.flushed).length = ipp * s0.flushed.length :=
    pagesIns_length_full hinv.full
  have hconcat_len :
      ipp * s0.flushed.length + s0.cbulk.ins_base.length = kvs.length := by
    have h1 := congrArg List.length hinv.concat
    simpa [hfull_len] using h1
  have hcnt := hinv.cnt
  by_cases h0 : s0.cbulk.ins_cnt = 0
  · rw [if_pos h0] at hfl hrn
    refine ⟨?_, ?_, ?_, ?_, ?_⟩
    · intro hnil
      rw [hfl]
      have hn : kvs.length = 0 := by simp [hnil]
      have hm : ipp * s0.flushed.length = 0 := by omega
      rcases Nat.mul_eq_zero.mp hm with h | h
      · omega
      · exact h
    · intro hne
      rw [hfl]
      have hn1 : 0 < kvs.length := List.length_pos.mpr hne
      have hn' : kvs.length = ipp * s0.flushed.length + 0 := by omega
      have hform := flush_count_formula hipp hipp hn' hn1
      simpa using hform
    · intro i p hp _
      rw [hfl] at hp
      exact hinv.full p (List.getElem?_mem hp)
    · intro p hp
      rw [hfl] at hp
      have hm := List.mem_of_getLast?_eq_some hp
      have := hinv.full p hm
      omega
    · rw [hfl, hrn, hinv.refs]
  · rw [if_neg h0] at hfl hrn
    have hrpos : 0 < s0.cbulk.ins_base.length := by omega
    refine ⟨?_, ?_, ?_, ?_, ?_⟩
    · intro hnil
      exfalso
      have : kvs.length = 0 := by simp [hnil]
      omega
    · intro hne
      rw [hfl]
      have hn1 : 0 < kvs.length := by omega
      have hn' : kvs.length
          = ipp * s0.flushed.length + s0.cbulk.ins_base.length := by omega
      have hform := flush_count_formula hipp hinv.cnt_lt hn' hn1
      rw [if_neg (by omega)] at hform
      simp only [List.length_append, List.length_singleton]
      omega
    · intro i p hp hi
      rw [hfl] at hp hi
      simp only [List.length_append, List.length_singleton] at hi
      have hlt : i < s0.flushed.length := by omega
      rw [List.getElem?_append_left hlt] at hp
      exact hinv.full p (List.getElem?_mem hp)
    · intro p hp
      rw [hfl, List.getLast?_concat] at hp
      have hpe := Option.some.inj hp
      have hins : p.ins = s0.cbulk.ins_base := by rw [← hpe]; rfl
      have hlt := hinv.cnt_lt
      rw [hins]
      omega
    · rw [hfl, hrn, hinv.refs]
      simp

/-- C2: for every capacity `ipp > 0`, a column load of `vs` and a row
load of `kvs` each flush exactly `floor((total_inserts - 1) / ipp) + 1`
pages (0 when no inserts happened): every flushed page but possibly the
last holds exactly `ipp` records, the last holds between 1 and `ipp`,
and after `end` the child-reference array's used count equals the number
of flushes. -/
theorem C2_flush_count {K V : Type} [Inhabited K] (ipp : Nat)
    (hipp : 0 < ipp) (vs : List V) (kvs : List (K × V)) :
    ((vs = [] →
      (wt_bulk_end (colRun vs (colStart K V ipp))).flushed.length = 0) ∧
    (vs ≠ [] →
      (wt_bulk_end (colRun vs (colStart K V ipp))).flushed.length
        = (vs.length - 1) / ipp + 1) ∧
    (∀ i p,
      (wt_bulk_end (colRun vs (colStart K V ipp))).flushed[i]? = some p →
      i + 1 < (wt_bulk_end (colRun vs (colStart K V ipp))).flushed.length →
      p.upd.length = ipp) ∧
    (∀ p,
      (wt_bulk_end (colRun vs (colStart K V ipp))).flushed.getLast? = some p →
      1 ≤ p.upd.length ∧ p.upd.length ≤ ipp) ∧
    (wt_bulk_end (colRun vs (colStart K V ipp))).cbulk.ref_next
      = (wt_bulk_end (colRun vs (colStart K V ipp))).flushed.length) ∧
    ((kvs = [] →
      (wt_bulk_end (rowRun kvs (rowStart K V ipp))).flushed.length = 0) ∧
    (kvs ≠ [] →
      (wt_bulk_end (rowRun kvs (rowStart K V ipp))).flushed.length
        = (kvs.length - 1) / ipp + 1) ∧
    (∀ i p,
      (wt_bulk_end (rowRun kvs (rowStart K V ipp))).flushed[i]? = some p →
      i + 1 < (wt_bulk_end (rowRun kvs (rowStart K V ipp))).flushed.length →
      p.ins.length = ipp) ∧
    (∀ p,
      (wt_bulk_end (rowRun kvs (rowStart K V ipp))).flushed.getLast? = some p →
      1 ≤ p.ins.length ∧ p.ins.length ≤ ipp) ∧
    (wt_bulk_end (rowRun kvs (rowStart K V ipp))).cbulk.ref_next
      = (wt_bulk_end (rowRun kvs (rowStart K V ipp))).flushed.length) :=
  ⟨c2_col_aux hipp vs, c2_row_aux hipp kvs⟩

/-- Witness for C2 at `ipp = 2`, column inserts `[10, 20, 30]`, row
inserts `[(1, 10), (2, 20), (3, 30)]`. -/
theorem C2_flush_count_witness :
    0 < 2 ∧
    ((((([10, 20, 30] : List Nat)) = [] →
      (wt_bulk_end (colRun [10, 20, 30] (colStart Nat Nat 2))).flushed.length
        = 0) ∧
    (([10, 20, 30] : List Nat) ≠ [] →
      (wt_bulk_end (colRun [10, 20, 30] (colStart Nat Nat 2))).flushed.length
        = (([10, 20, 30] : List Nat).length - 1) / 2 + 1) ∧
    (∀ i p,
      (wt_bulk_end
        (colRun [10, 20, 30] (colStart Nat Nat 2))).flushed[i]? = some p →
      i + 1 <
        (wt_bulk_end
          (colRun [10, 20, 30] (colStart Nat Nat 2))).flushed.length →
      p.upd.length = 2) ∧
    (∀ p,
      (wt_bulk_end
        (colRun [10, 20, 30] (colStart Nat Nat 2))).flushed.getLast?
          = some p →
      1 ≤ p.upd.length ∧ p.upd.length ≤ 2) ∧
    (wt_bulk_end (colRun [10, 20, 30] (colStart Nat Nat 2))).cbulk.ref_next
      = (wt_bulk_end
          (colRun [10, 20, 30] (colStart Nat Nat 2))).flushed.length) ∧
    ((([(1, 10), (2, 20), (3, 30)] : List (Nat × Nat)) = [] →
      (wt_bulk_end (rowRun [(1, 10), (2, 20), (3, 30)]
        (rowStart Nat Nat 2))).flushed.length = 0) ∧
    (([(1, 10), (2, 20), (3, 30)] : List (Nat × Nat)) ≠ [] →
      (wt_bulk_end (rowRun [(1, 10), (2, 20), (3, 30)]
        (rowStart Nat Nat 2))).flushed.length
        = (([(1, 10), (2, 20), (3, 30)] : List (Nat × Nat)).length - 1) / 2
          + 1) ∧
    (∀ i p,
      (wt_bulk_end (rowRun [(1, 10), (2, 20), (3, 30)]
        (rowStart Nat Nat 2))).flushed[i]? = some p →
      i + 1 < (wt_bulk_end (rowRun [(1, 10), (2, 20), (3, 30)]
        (rowStart Nat Nat 2))).flushed.length →
      p.ins.length = 2) ∧
    (∀ p,
      (wt_bulk_end (rowRun [(1, 10), (2, 20), (3, 30)]
        (rowStart Nat Nat 2))).flushed.getLast? = some p →
      1 ≤ p.ins.length ∧ p.ins.length ≤ 2) ∧
    (wt_bulk_end (rowRun [(1, 10), (2, 20), (3, 30)]
        (rowStart Nat Nat 2))).cbulk.ref_next
      = (wt_bulk_end (rowRun [(1, 10), (2, 20), (3, 30)]
          (rowStart Nat Nat 2))).flushed.length)) :=
  ⟨by decide,
    C2_flush_count 2 (by decide) [10, 20, 30] [(1, 10), (2, 20), (3, 30)]⟩

/-- C3: `__wt_bulk_init` on a tree that is not in the initial-empty
state returns the not-permitted error `WT_ERROR` and performs no
mutation at all: the returned state is exactly the input state, so the
call can be retried once the tree is made empty. -/
theorem C3_init_nonempty_no_mutation {K V : Type} (s : BulkState K V)
    (h : rootInitialEmpty s.btree = false) :
    wt_bulk_init s = (Except.error WtErr.WT_ERROR, s) := by
  simp [wt_bulk_init, h]

/-- Witness for C3 on a concrete non-empty row tree. -/
theorem C3_init_nonempty_no_mutation_witness :
    rootInitialEmpty (nonEmptyState Nat Nat BtreeType.BTREE_ROW).btree
      = false ∧
    wt_bulk_init (nonEmptyState Nat Nat BtreeType.BTREE_ROW)
      = (Except.error WtErr.WT_ERROR,
         nonEmptyState Nat Nat BtreeType.BTREE_ROW) :=
  ⟨by decide,
   C3_init_nonempty_no_mutation (nonEmptyState Nat Nat BtreeType.BTREE_ROW)
     (by decide)⟩

/-- C10: on a tree in the initial-empty state `__wt_bulk_init` always
returns success (the path performs no fallible allocation, so it can
never fail with out-of-memory); it frees the placeholder root page,
marks the root on-disk, sets the no-eviction flag, and sets the target
page capacity to the positive constant 50000. -/
theorem C10_init_empty_succeeds {K V : Type} (s : BulkState K V)
    (h : rootInitialEmpty s.btree = true) :
    (wt_bulk_init s).1 = Except.ok () ∧
    (wt_bulk_init s).2.btree.root_page.page = none ∧
    (wt_bulk_init s).2.btree.root_page.state = RefState.WT_REF_DISK ∧
    (wt_bulk_init s).2.btree.no_eviction = true ∧
    (wt_bulk_init s).2.cbulk.ipp = 50000 ∧
    0 < (wt_bulk_init s).2.cbulk.ipp := by
  refine ⟨?_, ?_, ?_, ?_, ?_, ?_⟩ <;> simp [wt_bulk_init, h]

/-- Witness for C10 on a concrete empty column tree. -/
theorem C10_init_empty_succeeds_witness :
    rootInitialEmpty (freshState Nat Nat BtreeType.BTREE_COL_VAR).btree
      = true ∧
    ((wt_bulk_init (freshState Nat Nat BtreeType.BTREE_COL_VAR)).1
        = Except.ok () ∧
     (wt_bulk_init
        (freshState Nat Nat BtreeType.BTREE_COL_VAR)).2.btree.root_page.page
        = none ∧
     (wt_bulk_init
        (freshState Nat Nat BtreeType.BTREE_COL_VAR)).2.btree.root_page.state
        = RefState.WT_REF_DISK ∧
     (wt_bulk_init
        (freshState Nat Nat BtreeType.BTREE_COL_VAR)).2.btree.no_eviction
        = true ∧
     (wt_bulk_init
        (freshState Nat Nat BtreeType.BTREE_COL_VAR)).2.cbulk.ipp = 50000 ∧
     0 < (wt_bulk_init
        (freshState Nat Nat BtreeType.BTREE_COL_VAR)).2.cbulk.ipp) :=
  ⟨by decide,
   C10_init_empty_succeeds (freshState Nat Nat BtreeType.BTREE_COL_VAR)
     (by decide)⟩

/-- C5: at every page rotation the captured child reference is, for
column-store, the flushed page's starting record number, after which the
session's starting record number has advanced by exactly the number of
records just flushed; for row-store it is a copy of the first key of the
flushed page's record list (the record list is built by tail appends, so
the first key is the key of the earliest record inserted into that
page). -/
theorem C5_rotation_capture {K V : Type} [Inhabited K]
    (s sr : BulkState K V)
    (hcnt : s.cbulk.ins_cnt = s.cbulk.upd_base.length) :
    ((wt_bulk_col_page s).cbulk.cref
        = s.cbulk.cref ++ [(colFlushPage s).recno] ∧
     (colFlushPage s).recno = s.cbulk.recno ∧
     (wt_bulk_col_page s).flushed = s.flushed ++ [colFlushPage s] ∧
     (wt_bulk_col_page s).cbulk.recno
        = s.cbulk.recno + (colFlushPage s).upd.length) ∧
    ((wt_bulk_row_page sr).cbulk.rref
        = sr.cbulk.rref ++ [((rowFlushPage sr).ins.map Prod.fst).headI] ∧
     (rowFlushPage sr).ins = sr.cbulk.ins_base ∧
     (wt_bulk_row_page sr).flushed = sr.flushed ++ [rowFlushPage sr]) := by
  refine ⟨⟨rfl, rfl, rfl, ?_⟩, rfl, rfl, rfl⟩
  show s.cbulk.recno + s.cbulk.ins_cnt
      = s.cbulk.recno + s.cbulk.upd_base.length
  rw [hcnt]

/-- Witness for C5 on concrete one-record pages. -/
theorem C5_rotation_capture_witness :
    ((colRun [7] (colStart Nat Nat 2)).cbulk.ins_cnt
        = (colRun [7] (colStart Nat Nat 2)).cbulk.upd_base.length) ∧
    (((wt_bulk_col_page (colRun [7] (colStart Nat Nat 2))).cbulk.cref
        = (colRun [7] (colStart Nat Nat 2)).cbulk.cref
          ++ [(colFlushPage (colRun [7] (colStart Nat Nat 2))).recno] ∧
      (colFlushPage (colRun [7] (colStart Nat Nat 2))).recno
        = (colRun [7] (colStart Nat Nat 2)).cbulk.recno ∧
      (wt_bulk_col_page (colRun [7] (colStart Nat Nat 2))).flushed
        = (colRun [7] (colStart Nat Nat 2)).flushed
          ++ [colFlushPage (colRun [7] (colStart Nat Nat 2))] ∧
      (wt_bulk_col_page (colRun [7] (colStart Nat Nat 2))).cbulk.recno
        = (colRun [7] (colStart Nat Nat 2)).cbulk.recno
          + (colFlushPage (colRun [7] (colStart Nat Nat 2))).upd.length) ∧
     ((wt_bulk_row_page (rowRun [(3, 4)] (rowStart Nat Nat 2))).cbulk.rref
        = (rowRun [(3, 4)] (rowStart Nat Nat 2)).cbulk.rref
          ++ [((rowFlushPage
                (rowRun [(3, 4)] (rowStart Nat Nat 2))).ins.map
                  Prod.fst).headI] ∧
      (rowFlushPage (rowRun [(3, 4)] (rowStart Nat Nat 2))).ins
        = (rowRun [(3, 4)] (rowStart Nat Nat 2)).cbulk.ins_base ∧
      (wt_bulk_row_page (rowRun [(3, 4)] (rowStart Nat Nat 2))).flushed
        = (rowRun [(3, 4)] (rowStart Nat Nat 2)).flushed
          ++ [rowFlushPage (rowRun [(3, 4)] (rowStart Nat Nat 2))])) :=
  ⟨by decide,
   C5_rotation_capture (colRun [7] (colStart Nat Nat 2))
     (rowRun [(3, 4)] (rowStart Nat Nat 2)) (by decide)⟩

/-- C6: a row-store insert whose allocation fails at the key step or at
the update step returns `WT_NOMEM`, links no partial record (the record
list and in-page count keep their pre-call values, i.e. length K-1 on
the Kth insert), flushes nothing, and releases everything allocated for
the record (the live-allocation balance is unchanged, so nothing
leaks). -/
theorem C6_row_alloc_failure {K V : Type} [Inhabited K]
    (keyOk updOk : Bool) (k : K) (v : V) (s : BulkState K V)
    (h : keyOk = false ∨ updOk = false) :
    (wt_bulk_row_f keyOk updOk k v s).1 = Except.error WtErr.WT_NOMEM ∧
    (wt_bulk_row_f keyOk updOk k v s).2.cbulk.ins_base = s.cbulk.ins_base ∧
    (wt_bulk_row_f keyOk updOk k v s).2.cbulk.ins_cnt = s.cbulk.ins_cnt ∧
    (wt_bulk_row_f keyOk updOk k v s).2.liveAllocs = s.liveAllocs ∧
    (wt_bulk_row_f keyOk updOk k v s).2.flushed = s.flushed := by
  rcases h with h | h
  · subst h; simp [wt_bulk_row_f]
  · subst h
    cases keyOk
    · simp [wt_bulk_row_f]
    · simp [wt_bulk_row_f]

/-- Witness for C6: update-step allocation failure on the second insert
leaves the list at length 1. -/
theorem C6_row_alloc_failure_witness :
    (true = false ∨ false = false) ∧
    ((wt_bulk_row_f true false 9 9
        (rowRun [(3, 4)] (rowStart Nat Nat 5))).1
      = Except.error WtErr.WT_NOMEM ∧
    (wt_bulk_row_f true false 9 9
        (rowRun [(3, 4)] (rowStart Nat Nat 5))).2.cbulk.ins_base
      = (rowRun [(3, 4)] (rowStart Nat Nat 5)).cbulk.ins_base ∧
    (wt_bulk_row_f true false 9 9
        (rowRun [(3, 4)] (rowStart Nat Nat 5))).2.cbulk.ins_cnt
      = (rowRun [(3, 4)] (rowStart Nat Nat 5)).cbulk.ins_cnt ∧
    (wt_bulk_row_f true false 9 9
        (rowRun [(3, 4)] (rowStart Nat Nat 5))).2.liveAllocs
      = (rowRun [(3, 4)] (rowStart Nat Nat 5)).liveAllocs ∧
    (wt_bulk_row_f true false 9 9
        (rowRun [(3, 4)] (rowStart Nat Nat 5))).2.flushed
      = (rowRun [(3, 4)] (rowStart Nat Nat 5)).flushed) :=
  ⟨by decide,
   C6_row_alloc_failure true false 9 9
     (rowRun [(3, 4)] (rowStart Nat Nat 5)) (by decide)⟩

lemma wt_bulk_col_btree (v : V) (s : BulkState K V) :
    (wt_bulk_col v s).btree = s.btree := by
  by_cases h : s.cbulk.ins_cnt + 1 = s.cbulk.ipp
  · rw [wt_bulk_col_full v s h]; rfl
  · rw [wt_bulk_col_not_full v s h]

lemma colRun_btree (vs : List V) (s : BulkState K V) :
    (colRun vs s).btree = s.btree := by
  induction vs generalizing s with
  | nil => rfl
  | cons v vs ih =>
      show (colRun vs (wt_bulk_col v s)).btree = s.btree
      rw [ih (wt_bulk_col v s), wt_bulk_col_btree]

lemma wt_bulk_end_r_btree_frame {K V : Type} [Inhabited K]
    (leafRec rootRec : Bool) (s : BulkState K V) :
    (wt_bulk_end_r leafRec rootRec s).2.btree.no_eviction
        = s.btree.no_eviction ∧
    (wt_bulk_end_r leafRec rootRec s).2.btree.type = s.btree.type ∧
    (wt_bulk_end_r leafRec rootRec s).2.btree.stats_items_inserted
        = s.btree.stats_items_inserted := by
  obtain ⟨bt, cb, fl, g, la⟩ := s
  obtain ⟨recno, pt, ipp, cnt, ub, ib, rn, re, cr, rr⟩ := cb
  cases pt <;> by_cases h : cnt = 0 <;> cases leafRec <;> cases rootRec <;>
    simp [wt_bulk_end_r, h, wt_bulk_col_page, wt_bulk_row_page]

/-- C9: `begin` sets the tree's no-background-eviction flag; `end`, on
every path (leaf-reconcile failure, root-reconcile failure or success),
preserves the no-eviction flag and every other tree field outside the
root reference (tree type, statistics counter); hence after a completed
bulk load (init, any column run, end) the tree is still opted out of
background eviction. -/
theorem C9_no_eviction_frame (K V : Type) [Inhabited K] :
    (∀ s : BulkState K V, rootInitialEmpty s.btree = true →
      (wt_bulk_init s).2.btree.no_eviction = true) ∧
    (∀ (leafRec rootRec : Bool) (s : BulkState K V),
      (wt_bulk_end_r leafRec rootRec s).2.btree.no_eviction
          = s.btree.no_eviction ∧
      (wt_bulk_end_r leafRec rootRec s).2.btree.type = s.btree.type ∧
      (wt_bulk_end_r leafRec rootRec s).2.btree.stats_items_inserted
          = s.btree.stats_items_inserted) ∧
    (∀ (vs : List V) (leafRec rootRec : Bool),
      (wt_bulk_end_r leafRec rootRec (colRun vs
        (wt_bulk_init (freshState K V BtreeType.BTREE_COL_VAR)).2)).2.btree.no_eviction = true) := by
  refine ⟨?_, wt_bulk_end_r_btree_frame, ?_⟩
  · intro s h
    simp [wt_bulk_init, h]
  · intro vs leafRec rootRec
    rw [(wt_bulk_end_r_btree_frame leafRec rootRec _).1,
      colRun_btree]
    rfl

/-- Witness for C9 on a concrete empty column tree. -/
theorem C9_no_eviction_frame_witness :
    rootInitialEmpty (freshState Nat Nat BtreeType.BTREE_COL_VAR).btree
        = true ∧
    (wt_bulk_init
      (freshState Nat Nat BtreeType.BTREE_COL_VAR)).2.btree.no_eviction
        = true :=
  ⟨by decide,
   (C9_no_eviction_frame Nat Nat).1
     (freshState Nat Nat BtreeType.BTREE_COL_VAR) (by decide)⟩

/-- C4: `end` flushes the final page exactly when it is non-empty, then
builds a single internal root page whose entry count equals the number
of accumulated child references (zero when no inserts occurred, without
crashing), typed internal-column (with starting record number 1) or
internal-row according to the layout, installs it in the tree's root
reference, and returns success exactly when the root reconciliation
succeeds. -/
theorem C4_end_builds_root {K V : Type} [Inhabited K]
    (leafRec rootRec : Bool) (s : BulkState K V)
    (hleaf : s.cbulk.ins_cnt ≠ 0 → leafRec = true)
    (hpt : s.cbulk.page_type = PageType.WT_PAGE_COL_FIX ∨
           s.cbulk.page_type = PageType.WT_PAGE_COL_RLE ∨
           s.cbulk.page_type = PageType.WT_PAGE_COL_VAR ∨
           s.cbulk.page_type = PageType.WT_PAGE_ROW_LEAF) :
    ((wt_bulk_end_r leafRec rootRec s).2.flushed.length
        = s.flushed.length + (if s.cbulk.ins_cnt = 0 then 0 else 1)) ∧
    ((wt_bulk_end_r leafRec rootRec s).2.btree.root_page.page.map
        Page.entries
        = some (wt_bulk_end_r leafRec rootRec s).2.cbulk.ref_next) ∧
    ((wt_bulk_end_r leafRec rootRec s).2.btree.root_page.state
        = RefState.WT_REF_MEM) ∧
    ((s.cbulk.page_type = PageType.WT_PAGE_COL_FIX ∨
      s.cbulk.page_type = PageType.WT_PAGE_COL_RLE ∨
      s.cbulk.page_type = PageType.WT_PAGE_COL_VAR) →
      (wt_bulk_end_r leafRec rootRec s).2.btree.root_page.page.map
          Page.page_type = some PageType.WT_PAGE_COL_INT ∧
      (wt_bulk_end_r leafRec rootRec s).2.btree.root_page.page.map
          Page.recno = some 1) ∧
    (s.cbulk.page_type = PageType.WT_PAGE_ROW_LEAF →
      (wt_bulk_end_r leafRec rootRec s).2.btree.root_page.page.map
          Page.page_type = some PageType.WT_PAGE_ROW_INT) ∧
    ((wt_bulk_end_r leafRec rootRec s).1 = Except.ok () ↔ rootRec = true) := by
  obtain ⟨bt, cb, fl, g, la⟩ := s
  obtain ⟨recno, pt, ipp, cnt, ub, ib, rn, re, cr, rr⟩ := cb
  by_cases h : cnt = 0
  all_goals cases pt <;>
    first
    | (exfalso; rcases hpt with h1 | h1 | h1 | h1 <;> exact PageType.noConfusion h1)
    | (cases rootRec <;>
        [skip; skip] <;>
        cases leafRec <;>
        simp_all [wt_bulk_end_r, wt_bulk_col_page, wt_bulk_row_page])

/-- Witness for C4: the degenerate load with zero inserts builds a root
with zero children and succeeds. -/
theorem C4_end_builds_root_witness :
    ((wt_bulk_init (freshState Nat Nat
        BtreeType.BTREE_COL_VAR)).2.cbulk.ins_cnt ≠ 0 → true = true) ∧
    ((wt_bulk_init (freshState Nat Nat
        BtreeType.BTREE_COL_VAR)).2.cbulk.page_type
          = PageType.WT_PAGE_COL_FIX ∨
     (wt_bulk_init (freshState Nat Nat
        BtreeType.BTREE_COL_VAR)).2.cbulk.page_type
          = PageType.WT_PAGE_COL_RLE ∨
     (wt_bulk_init (freshState Nat Nat
        BtreeType.BTREE_COL_VAR)).2.cbulk.page_type
          = PageType.WT_PAGE_COL_VAR ∨
     (wt_bulk_init (freshState Nat Nat
        BtreeType.BTREE_COL_VAR)).2.cbulk.page_type
          = PageType.WT_PAGE_ROW_LEAF) ∧
    (((wt_bulk_end_r true true (wt_bulk_init (freshState Nat Nat
          BtreeType.BTREE_COL_VAR)).2).2.flushed.length
        = (wt_bulk_init (freshState Nat Nat
            BtreeType.BTREE_COL_VAR)).2.flushed.length
          + (if (wt_bulk_init (freshState Nat Nat
              BtreeType.BTREE_COL_VAR)).2.cbulk.ins_cnt = 0 then 0 else 1)) ∧
    ((wt_bulk_end_r true true (wt_bulk_init (freshState Nat Nat
        BtreeType.BTREE_COL_VAR)).2).2.btree.root_page.page.map Page.entries
        = some (wt_bulk_end_r true true (wt_bulk_init (freshState Nat Nat
            BtreeType.BTREE_COL_VAR)).2).2.cbulk.ref_next) ∧
    ((wt_bulk_end_r true true (wt_bulk_init (freshState Nat Nat
        BtreeType.BTREE_COL_VAR)).2).2.btree.root_page.state
        = RefState.WT_REF_MEM) ∧
    (((wt_bulk_init (freshState Nat Nat
        BtreeType.BTREE_COL_VAR)).2.cbulk.page_type
          = PageType.WT_PAGE_COL_FIX ∨
      (wt_bulk_init (freshState Nat Nat
        BtreeType.BTREE_COL_VAR)).2.cbulk.page_type
          = PageType.WT_PAGE_COL_RLE ∨
      (wt_bulk_init (freshState Nat Nat
        BtreeType.BTREE_COL_VAR)).2.cbulk.page_type
          = PageType.WT_PAGE_COL_VAR) →
      (wt_bulk_end_r true true (wt_bulk_init (freshState Nat Nat
          BtreeType.BTREE_COL_VAR)).2).2.btree.root_page.page.map
            Page.page_type = some PageType.WT_PAGE_COL_INT ∧
      (wt_bulk_end_r true true (wt_bulk_init (freshState Nat Nat
          BtreeType.BTREE_COL_VAR)).2).2.btree.root_page.page.map
            Page.recno = some 1) ∧
    ((wt_bulk_init (freshState Nat Nat
        BtreeType.BTREE_COL_VAR)).2.cbulk.page_type
          = PageType.WT_PAGE_ROW_LEAF →
      (wt_bulk_end_r true true (wt_bulk_init (freshState Nat Nat
          BtreeType.BTREE_COL_VAR)).2).2.btree.root_page.page.map
            Page.page_type = some PageType.WT_PAGE_ROW_INT) ∧
    ((wt_bulk_end_r true true (wt_bulk_init (freshState Nat Nat
        BtreeType.BTREE_COL_VAR)).2).1 = Except.ok () ↔ true = true)) :=
  ⟨by decide, by decide,
   C4_end_builds_root true true
     (wt_bulk_init (freshState Nat Nat BtreeType.BTREE_COL_VAR)).2
     (by decide) (by decide)⟩

lemma cap_step {rn re : Nat}
    (h : (rn = 0 ∧ re = 0) ∨ re = smallestPosMult1000 rn) :
    (if rn = re then re + 1000 else re) = smallestPosMult1000 (rn + 1) := by
  have hne : ¬ (rn + 1 = 0) := by omega
  unfold smallestPosMult1000 at h ⊢
  rw [if_neg hne]
  rcases h with ⟨h1, h2⟩ | h2
  · subst h1; subst h2; norm_num
  · by_cases h0 : rn = 0
    · rw [if_pos h0] at h2
      subst h0; subst h2
      norm_num
    · rw [if_neg h0] at h2
      by_cases hg : rn = re
      · rw [if_pos hg]; omega
      · rw [if_neg hg]; omega

lemma capInv_col_page (s : BulkState K V) (h : capInv s) :
    capInv (wt_bulk_col_page s) := by
  refine ⟨?_, Or.inr (cap_step h.2)⟩
  show s.cbulk.ref_next + 1 = (s.flushed ++ [colFlushPage s]).length
  rw [List.length_append, h.1]
  rfl

lemma capInv_row_page [Inhabited K] (s : BulkState K V) (h : capInv s) :
    capInv (wt_bulk_row_page s) := by
  refine ⟨?_, Or.inr (cap_step h.2)⟩
  show s.cbulk.ref_next + 1 = (s.flushed ++ [rowFlushPage s]).length
  rw [List.length_append, h.1]
  rfl

lemma capInv_col_insert (v : V) (s : BulkState K V) (h : capInv s) :
    capInv (wt_bulk_col v s) := by
  by_cases hf : s.cbulk.ins_cnt + 1 = s.cbulk.ipp
  · rw [wt_bulk_col_full v s hf]
    exact capInv_col_page _ h
  · rw [wt_bulk_col_not_full v s hf]
    exact h

lemma capInv_row_insert [Inhabited K] (k : K) (v : V) (s : BulkState K V)
    (h : capInv s) : capInv (wt_bulk_row k v s) := by
  by_cases hf : s.cbulk.ins_cnt + 1 = s.cbulk.ipp
  · rw [wt_bulk_row_full k v s hf]
    exact capInv_row_page _ h
  · rw [wt_bulk_row_not_full k v s hf]
    exact h

lemma capInv_colRun (vs : List V) (s : BulkState K V) (h : capInv s) :
    capInv (colRun vs s) := by
  induction vs generalizing s with
  | nil => exact h
  | cons v vs ih => exact ih (wt_bulk_col v s) (capInv_col_insert v s h)

lemma capInv_rowRun [Inhabited K] (kvs : List (K × V)) (s : BulkState K V)
    (h : capInv s) : capInv (rowRun kvs s) := by
  induction kvs generalizing s with
  | nil => exact h
  | cons kv kvs ih =>
      exact ih (wt_bulk_row kv.1 kv.2 s) (capInv_row_insert kv.1 kv.2 s h)

/-- C8 (amended): during every page rotation the child-reference array
is reallocated by exactly 1000 additional slots precisely when its used
count equals its allocated count, and otherwise is not reallocated;
consequently at every point of a load the used count equals the number
of flushed pages and the allocated capacity is 0 before the first
rotation and from then on the smallest positive multiple of 1000 that is
at least the number of flushed pages. -/
theorem C8_capacity_amended (K V : Type) [Inhabited K] :
    (∀ s : BulkState K V,
      (wt_bulk_col_page s).cbulk.ref_entries
        = (if s.cbulk.ref_next = s.cbulk.ref_entries
           then s.cbulk.ref_entries + 1000 else s.cbulk.ref_entries) ∧
      (wt_bulk_row_page s).cbulk.ref_entries
        = (if s.cbulk.ref_next = s.cbulk.ref_entries
           then s.cbulk.ref_entries + 1000 else s.cbulk.ref_entries)) ∧
    (∀ (ipp : Nat) (vs : List V), capInv (colRun vs (colStart K V ipp))) ∧
    (∀ (ipp : Nat) (kvs : List (K × V)),
      capInv (rowRun kvs (rowStart K V ipp))) := by
  refine ⟨fun s => ⟨rfl, rfl⟩, ?_, ?_⟩
  · intro ipp vs
    exact capInv_colRun vs (colStart K V ipp) ⟨rfl, Or.inl ⟨rfl, rfl⟩⟩
  · intro ipp kvs
    exact capInv_rowRun kvs (rowStart K V ipp) ⟨rfl, Or.inl ⟨rfl, rfl⟩⟩

/-- C8 counterexample: immediately after a successful `begin` — a
reachable point of every load, with zero pages flushed — the allocated
capacity is 0 and not the smallest positive multiple of 1000 (which is
1000), so the claimed at-every-point capacity formula fails before the
first rotation. -/
theorem C8_capacity_counterexample :
    (wt_bulk_init (freshState Nat Nat
        BtreeType.BTREE_COL_VAR)).2.flushed.length = 0 ∧
    (wt_bulk_init (freshState Nat Nat
        BtreeType.BTREE_COL_VAR)).2.cbulk.ref_entries = 0 ∧
    smallestPosMult1000 (wt_bulk_init (freshState Nat Nat
        BtreeType.BTREE_COL_VAR)).2.flushed.length = 1000 ∧
    (wt_bulk_init (freshState Nat Nat
        BtreeType.BTREE_COL_VAR)).2.cbulk.ref_entries
      ≠ smallestPosMult1000 (wt_bulk_init (freshState Nat Nat
          BtreeType.BTREE_COL_VAR)).2.flushed.length := by
  refine ⟨rfl, rfl, by decide, by decide⟩

lemma take_stable {α : Type} {c t : List α} {k : Nat} (h : k ≤ c.length) :
    (c ++ t).take k = c.take k := by
  rw [List.take_append_eq_append_take, Nat.sub_eq_zero_of_le h]
  simp

lemma wt_bulk_col_cref_ext (v : V) (s : BulkState K V) :
    ∃ t, (wt_bulk_col v s).cbulk.cref = s.cbulk.cref ++ t := by
  by_cases hf : s.cbulk.ins_cnt + 1 = s.cbulk.ipp
  · rw [wt_bulk_col_full v s hf]
    exact ⟨[s.cbulk.recno], rfl⟩
  · rw [wt_bulk_col_not_full v s hf]
    exact ⟨[], by simp⟩

lemma wt_bulk_row_rref_ext [Inhabited K] (k : K) (v : V)
    (s : BulkState K V) :
    ∃ t, (wt_bulk_row k v s).cbulk.rref = s.cbulk.rref ++ t := by
  by_cases hf : s.cbulk.ins_cnt + 1 = s.cbulk.ipp
  · rw [wt_bulk_row_full k v s hf]
    exact ⟨[((s.cbulk.ins_base ++ [(k, v)]).map Prod.fst).headI], rfl⟩
  · rw [wt_bulk_row_not_full k v s hf]
    exact ⟨[], by simp⟩

lemma colRun_cref_take (vs : List V) (s : BulkState K V) (k : Nat)
    (h : k ≤ s.cbulk.cref.length) :
    (colRun vs s).cbulk.cref.take k = s.cbulk.cref.take k := by
  induction vs generalizing s with
  | nil => rfl
  | cons v vs ih =>
      obtain ⟨t, ht⟩ := wt_bulk_col_cref_ext v s
      have hlen : k ≤ (wt_bulk_col v s).cbulk.cref.length := by
        rw [ht]; simp; omega
      show (colRun vs (wt_bulk_col v s)).cbulk.cref.take k = _
      rw [ih (wt_bulk_col v s) hlen, ht, take_stable h]

lemma rowRun_rref_take [Inhabited K] (kvs : List (K × V))
    (s : BulkState K V) (k : Nat) (h : k ≤ s.cbulk.rref.length) :
    (rowRun kvs s).cbulk.rref.take k = s.cbulk.rref.take k := by
  induction kvs generalizing s with
  | nil => rfl
  | cons kv kvs ih =>
      obtain ⟨t, ht⟩ := wt_bulk_row_rref_ext kv.1 kv.2 s
      have hlen : k ≤ (wt_bulk_row kv.1 kv.2 s).cbulk.rref.length := by
        rw [ht]; simp; omega
      show (rowRun kvs (wt_bulk_row kv.1 kv.2 s)).cbulk.rref.take k = _
      rw [ih (wt_bulk_row kv.1 kv.2 s) hlen, ht, take_stable h]

/-- C7 (amended): at rotation time the flushed skeleton page's
back-reference is the address of the just-captured child-reference slot
in the array's current allocation — it is live immediately after the
rotation — and the captured slot's content is never modified by the
rest of the load (later growth copies it and later captures only
append); the address itself, however, is only guaranteed live until the
next reallocation of the array (see the counterexample): the code relies
on reconciliation completing synchronously inside the rotation. -/
theorem C7_backref_amended {K V : Type} [Inhabited K]
    (s sr : BulkState K V) (vs : List V) (kvs : List (K × V))
    (hlc : s.cbulk.cref.length = s.cbulk.ref_next)
    (hlr : sr.cbulk.rref.length = sr.cbulk.ref_next) :
    ((colFlushPage s).parent_ref
        = ParentRef.slot (wt_bulk_col_page s).gen s.cbulk.ref_next ∧
     slotLive (wt_bulk_col_page s) (colFlushPage s).parent_ref = true ∧
     (colRun vs (wt_bulk_col_page s)).cbulk.cref.take (s.cbulk.ref_next + 1)
        = (wt_bulk_col_page s).cbulk.cref.take (s.cbulk.ref_next + 1)) ∧
    ((rowFlushPage sr).parent_ref
        = ParentRef.slot (wt_bulk_row_page sr).gen sr.cbulk.ref_next ∧
     slotLive (wt_bulk_row_page sr) (rowFlushPage sr).parent_ref = true ∧
     (rowRun kvs
        (wt_bulk_row_page sr)).cbulk.rref.take (sr.cbulk.ref_next + 1)
        = (wt_bulk_row_page sr).cbulk.rref.take (sr.cbulk.ref_next + 1)) := by
  refine ⟨⟨rfl, ?_, ?_⟩, rfl, ?_, ?_⟩
  · simp [slotLive, colFlushPage, col_page_gen]
  · refine colRun_cref_take vs (wt_bulk_col_page s) (s.cbulk.ref_next + 1) ?_
    rw [col_page_cbulk]
    simp [hlc]
  · simp [slotLive, rowFlushPage, row_page_gen]
  · refine rowRun_rref_take kvs (wt_bulk_row_page sr)
      (sr.cbulk.ref_next + 1) ?_
    rw [row_page_cbulk]
    simp [hlr]

/-- Witness for the amended C7 on concrete one-record rotations. -/
theorem C7_backref_amended_witness :
    ((colRun [7] (colStart Nat Nat 2)).cbulk.cref.length
        = (colRun [7] (colStart Nat Nat 2)).cbulk.ref_next) ∧
    ((rowRun [(3, 4)] (rowStart Nat Nat 2)).cbulk.rref.length
        = (rowRun [(3, 4)] (rowStart Nat Nat 2)).cbulk.ref_next) ∧
    (((colFlushPage (colRun [7] (colStart Nat Nat 2))).parent_ref
        = ParentRef.slot
            (wt_bulk_col_page (colRun [7] (colStart Nat Nat 2))).gen
            (colRun [7] (colStart Nat Nat 2)).cbulk.ref_next ∧
      slotLive (wt_bulk_col_page (colRun [7] (colStart Nat Nat 2)))
          (colFlushPage (colRun [7] (colStart Nat Nat 2))).parent_ref
        = true ∧
      (colRun [1, 2, 3]
          (wt_bulk_col_page (colRun [7] (colStart Nat Nat 2)))).cbulk.cref.take
            ((colRun [7] (colStart Nat Nat 2)).cbulk.ref_next + 1)
        = (wt_bulk_col_page
            (colRun [7] (colStart Nat Nat 2))).cbulk.cref.take
              ((colRun [7] (colStart Nat Nat 2)).cbulk.ref_next + 1)) ∧
     ((rowFlushPage (rowRun [(3, 4)] (rowStart Nat Nat 2))).parent_ref
        = ParentRef.slot
            (wt_bulk_row_page (rowRun [(3, 4)] (rowStart Nat Nat 2))).gen
            (rowRun [(3, 4)] (rowStart Nat Nat 2)).cbulk.ref_next ∧
      slotLive (wt_bulk_row_page (rowRun [(3, 4)] (rowStart Nat Nat 2)))
          (rowFlushPage (rowRun [(3, 4)] (rowStart Nat Nat 2))).parent_ref
        = true ∧
      (rowRun [(5, 6)]
          (wt_bulk_row_page
            (rowRun [(3, 4)] (rowStart Nat Nat 2)))).cbulk.rref.take
              ((rowRun [(3, 4)] (rowStart Nat Nat 2)).cbulk.ref_next + 1)
        = (wt_bulk_row_page
            (rowRun [(3, 4)] (rowStart Nat Nat 2))).cbulk.rref.take
              ((rowRun [(3, 4)] (rowStart Nat Nat 2)).cbulk.ref_next + 1))) :=
  ⟨by decide, by decide,
   C7_backref_amended (colRun [7] (colStart Nat Nat 2))
     (rowRun [(3, 4)] (rowStart Nat Nat 2)) [1, 2, 3] [(5, 6)]
     (by decide) (by decide)⟩

lemma c7run_start : C7Run 0 (colStart K V 1) := by
  refine ⟨rfl, rfl, rfl, ?_, ?_, rfl, ?_⟩
  · show (0 : Nat) = 1000 * ((0 + 999) / 1000)
    norm_num
  · show (0 : Nat) = (0 + 999) / 1000
    norm_num
  · intro h; omega

lemma c7run_step (v : V) {n : Nat} {s : BulkState K V} (h : C7Run n s) :
    C7Run (n + 1) (wt_bulk_col v s) := by
  have hfull : s.cbulk.ins_cnt + 1 = s.cbulk.ipp := by
    rw [h.cnt, h.ipp]
  rw [wt_bulk_col_full v s hfull]
  have hnext := h.next
  have hentries := h.entries
  have hgen := h.gen
  refine ⟨h.ipp, rfl, ?_, ?_, ?_, ?_, ?_⟩
  · show s.cbulk.ref_next + 1 = n + 1
    omega
  · show (if s.cbulk.ref_next = s.cbulk.ref_entries
        then s.cbulk.ref_entries + 1000 else s.cbulk.ref_entries)
      = 1000 * ((n + 1 + 999) / 1000)
    by_cases hg : s.cbulk.ref_next = s.cbulk.ref_entries
    · rw [if_pos hg]; omega
    · rw [if_neg hg]; omega
  · show (if s.cbulk.ref_next = s.cbulk.ref_entries
        then s.gen + 1 else s.gen) = (n + 1 + 999) / 1000
    by_cases hg : s.cbulk.ref_next = s.cbulk.ref_entries
    · rw [if_pos hg]; omega
    · rw [if_neg hg]; omega
  · show (s.flushed ++ [_]).length = n + 1
    rw [List.length_append, h.flen]
    rfl
  · intro _
    by_cases hn : n = 0
    · have hnil : s.flushed = [] :=
        List.length_eq_zero.mp (by rw [h.flen, hn])
      rw [hnil]
      show (ParentRef.slot (if s.cbulk.ref_next = s.cbulk.ref_entries
          then s.gen + 1 else s.gen) s.cbulk.ref_next) = ParentRef.slot 1 0
      have hc : s.cbulk.ref_next = s.cbulk.ref_entries := by omega
      rw [if_pos hc, hnext, hgen, hn]
    · have hpos : 0 < s.flushed.length := by rw [h.flen]; omega
      rcases hq : s.flushed with _ | ⟨a, as⟩
      · rw [hq] at hpos; simp at hpos
      · have hh := h.head (by omega)
        rw [hq] at hh
        show ((a :: as) ++ [_]).headI.parent_ref = ParentRef.slot 1 0
        simpa using hh

lemma c7run_all {K V : Type} (v : V) :
    ∀ n : Nat, C7Run n (colRun (List.replicate n v) (colStart K V 1)) := by
  intro n
  induction n with
  | zero => exact c7run_start
  | succ m ih =>
      rw [List.replicate_succ']
      have hfold : colRun (List.replicate m v ++ [v]) (colStart K V 1)
          = wt_bulk_col v (colRun (List.replicate m v) (colStart K V 1)) := by
        simp [colRun, List.foldl_append]
      rw [hfold]
      exact c7run_step v ih

/-- C7 counterexample: with capacity 1, after 1001 column inserts the
first flushed page's back-reference still carries the slot address it
captured in allocation generation 1 of the child-reference array, but
the array has since been reallocated (generation 2), so that address is
no longer a live location — the back-reference is not stable across
subsequent growth of the array. -/
theorem C7_backref_counterexample :
    ((colRun (List.replicate 1001 (0 : Nat))
        (colStart Nat Nat 1)).flushed.headI).parent_ref
      = ParentRef.slot 1 0 ∧
    (colRun (List.replicate 1001 (0 : Nat)) (colStart Nat Nat 1)).gen = 2 ∧
    slotLive (colRun (List.replicate 1001 (0 : Nat)) (colStart Nat Nat 1))
      ((colRun (List.replicate 1001 (0 : Nat))
          (colStart Nat Nat 1)).flushed.headI).parent_ref = false := by
  have h : C7Run 1001
      (colRun (List.replicate 1001 (0 : Nat)) (colStart Nat Nat 1)) :=
    c7run_all 0 1001
  have hh := h.head (by omega)
  have hg : (colRun (List.replicate 1001 (0 : Nat))
      (colStart Nat Nat 1)).gen = 2 := by
    have := h.gen; norm_num at this; exact this
  have e1 : slotLive
      (colRun (List.replicate 1001 (0 : Nat)) (colStart Nat Nat 1))
      (ParentRef.slot 1 0)
      = (1 == (colRun (List.replicate 1001 (0 : Nat))
          (colStart Nat Nat 1)).gen) := rfl
  refine ⟨hh, hg, ?_⟩
  rw [hh, e1, hg]
  rfl
